import Mathlib

/-!
Verification development for the attendance backend in `src/App.js`.

The embedding covers the attendance-marking core:
  * `computeCosineSimilarity` (App.js 4838-4855), over an extended number
    type `EJs` / `RJs` that models JavaScript numbers (exact rationals for
    finite doubles, plus Infinity, -Infinity and NaN with IEEE-style
    propagation for the operations the function uses);
  * `faceppCompare` (App.js 4780-4795), response handling only — the network
    round trip is abstracted as the optional confidence value of the reply;
  * the calendar-date key `new Date().toISOString().split('T')[0]`
    (App.js 5558, 5981) as `utcDateKey` over milliseconds since the epoch;
  * the lateness classification shared verbatim by both endpoints
    (App.js 5580-5594 and 6020-6035) as `classify`;
  * the unique index on (studentId, courseCode, date) (App.js 5105) as the
    conditional insert `tryInsert`;
  * `createNotification` (App.js 5199-5212) with its swallowed save error;
  * the two endpoints `POST /api/student/attendance` (App.js 5937-6094) and
    `POST /api/student/attendance-image` (App.js 5533-5632) as state
    transformers `postAttendance` / `postAttendanceImage`.

Modelling conventions: external calls (the Similarity Oracle) are passed as
parameters so that their invocation is observable in an event trace; the
store state is passed explicitly, with a `race` list of records committed by
concurrent requests between the duplicate check and the save, so that the
commit-time uniqueness race is expressible.
-/

namespace AttendanceApp

/-! ## JavaScript numbers for the cosine-similarity helper -/

/-- A JavaScript number as consumed by `computeCosineSimilarity`: a finite
double (modelled as an exact rational), positive or negative Infinity, or
NaN. -/
inductive EJs where
  | fin (q : ℚ)
  | inf
  | ninf
  | nan
deriving DecidableEq, Repr

/-- IEEE-style addition on `EJs`. Finite values add exactly: double
rounding and overflow to Infinity are not modelled, an idealization that
matters for overflow-sensitive range properties. -/
def eadd : EJs → EJs → EJs
  | .nan, _ => .nan
  | _, .nan => .nan
  | .fin a, .fin b => .fin (a + b)
  | .inf, .ninf => .nan
  | .ninf, .inf => .nan
  | .inf, _ => .inf
  | _, .inf => .inf
  | .ninf, _ => .ninf
  | _, .ninf => .ninf

/-- IEEE-style multiplication on `EJs` (`Infinity * 0 = NaN`). Finite
values multiply exactly: double rounding and overflow to Infinity are not
modelled, an idealization that matters for overflow-sensitive range
properties. -/
def emul : EJs → EJs → EJs
  | .nan, _ => .nan
  | _, .nan => .nan
  | .fin a, .fin b => .fin (a * b)
  | .inf, .fin b => if 0 < b then .inf else if b < 0 then .ninf else .nan
  | .fin a, .inf => if 0 < a then .inf else if a < 0 then .ninf else .nan
  | .ninf, .fin b => if 0 < b then .ninf else if b < 0 then .inf else .nan
  | .fin a, .ninf => if 0 < a then .ninf else if a < 0 then .inf else .nan
  | .inf, .inf => .inf
  | .inf, .ninf => .ninf
  | .ninf, .inf => .ninf
  | .ninf, .ninf => .inf

/-- The result side of the cosine computation: a JavaScript number whose
finite part is a real (the source divides by square roots). -/
inductive RJs where
  | fin (x : ℝ)
  | inf
  | ninf
  | nan

/-- Inclusion of the exact accumulator values into the real-valued result
numbers. -/
noncomputable def EJs.toR : EJs → RJs
  | .fin q => .fin (q : ℝ)
  | .inf => .inf
  | .ninf => .ninf
  | .nan => .nan

open Classical in
/-- IEEE-style `Math.sqrt` on result numbers: NaN on negative arguments,
Infinity on Infinity. -/
noncomputable def rsqrt : RJs → RJs
  | .fin x => if x < 0 then .nan else .fin (Real.sqrt x)
  | .inf => .inf
  | .ninf => .nan
  | .nan => .nan

open Classical in
/-- IEEE-style multiplication on result numbers. -/
noncomputable def rmul : RJs → RJs → RJs
  | .nan, _ => .nan
  | _, .nan => .nan
  | .fin a, .fin b => .fin (a * b)
  | .inf, .fin b => if 0 < b then .inf else if b < 0 then .ninf else .nan
  | .fin a, .inf => if 0 < a then .inf else if a < 0 then .ninf else .nan
  | .ninf, .fin b => if 0 < b then .ninf else if b < 0 then .inf else .nan
  | .fin a, .ninf => if 0 < a then .ninf else if a < 0 then .inf else .nan
  | .inf, .inf => .inf
  | .inf, .ninf => .ninf
  | .ninf, .inf => .ninf
  | .ninf, .ninf => .inf

open Classical in
/-- IEEE-style division on result numbers: `x / Infinity = 0`,
`Infinity / Infinity = NaN`, division by zero gives signed Infinity and
`0 / 0 = NaN`. -/
noncomputable def rdiv : RJs → RJs → RJs
  | .nan, _ => .nan
  | _, .nan => .nan
  | .fin a, .fin b =>
      if b = 0 then (if a = 0 then .nan else if 0 < a then .inf else .ninf)
      else .fin (a / b)
  | .fin _, .inf => .fin 0
  | .fin _, .ninf => .fin 0
  | .inf, .fin b => if b < 0 then .ninf else .inf
  | .ninf, .fin b => if b < 0 then .inf else .ninf
  | .inf, _ => .nan
  | .ninf, _ => .nan

/-- The accumulation loop of `computeCosineSimilarity` (App.js 4845-4852):
walks both vectors in lockstep, returning `none` for the early
`return 0` taken when an element is NaN (`Number.isNaN(va) || Number.isNaN(vb)`),
and otherwise the final `(dot, normA, normB)` accumulators. The mismatched
tail case is unreachable after the length guard. -/
def cosLoop : List EJs → List EJs → EJs → EJs → EJs → Option (EJs × EJs × EJs)
  | [], [], dot, nA, nB => some (dot, nA, nB)
  | va :: ta, vb :: tb, dot, nA, nB =>
      if va = .nan ∨ vb = .nan then none
      else cosLoop ta tb (eadd dot (emul va vb)) (eadd nA (emul va va)) (eadd nB (emul vb vb))
  | _, _, _, _, _ => none

/-- The helper `computeCosineSimilarity` (App.js 4838-4855). The `Array.isArray`
guards are subsumed by the list typing; the remaining guards are literal:
empty or length-mismatched inputs give 0, a NaN element gives 0, a zero
`normA` or `normB` accumulator gives 0, and otherwise the result is
`dot / (Math.sqrt(normA) * Math.sqrt(normB))`. -/
noncomputable def computeCosineSimilarity (a b : List EJs) : RJs :=
  if a.length = 0 ∨ b.length = 0 ∨ a.length ≠ b.length then .fin 0
  else
    match cosLoop a b (.fin 0) (.fin 0) (.fin 0) with
    | none => .fin 0
    | some (dot, nA, nB) =>
        if nA = .fin 0 ∨ nB = .fin 0 then .fin 0
        else rdiv dot.toR (rmul (rsqrt nA.toR) (rsqrt nB.toR))

/-- Response handling of `faceppCompare` (App.js 4780-4795): the argument is
the `confidence` field of the provider reply (`none` when `resp.data` is
missing or `confidence` is not a number, in which case the source throws),
and on success the source returns `confidence / 100`. -/
def faceppCompare (confidence : Option ℚ) : Except String ℚ :=
  match confidence with
  | none => .error "Invalid compare response"
  | some c => .ok (c / 100)

/-! ## Calendar-date key -/

/-- Milliseconds per day. -/
def msPerDay : ℕ := 86400000

/-- The date key computed by both endpoints (App.js 5558 and 5981):
`new Date().toISOString().split('T')[0]`, i.e. the UTC calendar day of the
submission instant, here as a day index from the epoch. -/
def utcDateKey (nowMs : ℕ) : ℕ := nowMs / msPerDay

/-- Modelled from the spec: the calendar date key described by the spec and
glossary, namely "the day component used to enforce
at-most-one-attendance-per-day, derived from server local time". The server
local day is the UTC instant shifted by the timezone offset (in minutes),
with flooring division for days before the shifted epoch. -/
def specLocalDateKey (nowMs : ℕ) (tzOffsetMin : ℤ) : ℤ :=
  Int.fdiv ((nowMs : ℤ) + tzOffsetMin * 60000) (msPerDay : ℤ)

/-! ## Lateness classification -/

/-- The classification block shared verbatim by both endpoints
(App.js 5580-5594 and 6020-6035): with `currentTime` and the fixed 09:00
`classStartTime` given in milliseconds, if `currentTime > classStartTime`
then `diffMinutes = Math.floor((currentTime - classStartTime)/60000)`, and
`diffMinutes > 15` yields status late with `lateMinutes = diffMinutes`;
otherwise status present. Returns (status, isLate, lateMinutes). -/
def classify (nowMs startMs : ℕ) : String × Bool × ℕ :=
  if startMs < nowMs then
    let diffMinutes := (nowMs - startMs) / 60000
    if 15 < diffMinutes then ("late", true, diffMinutes)
    else ("present", false, 0)
  else ("present", false, 0)

/-! ## Data model -/

/-- The student fields used by the attendance endpoints (user schema,
App.js 4877-4949, filtered to `role: student`). -/
structure Student where
  studentId : String
  studentName : String
  isActive : Bool
  enrolledCourses : List String
  faceEncodings : List ℚ
  faceToken : Option String
deriving DecidableEq, Repr

/-- The course fields used by the attendance endpoints (course schema,
App.js 4952-4992). -/
structure Course where
  courseCode : String
  isActive : Bool
deriving DecidableEq, Repr

/-- The attendance record fields relevant to the claims (attendance schema,
App.js 5038-5086); `date` is the day key, `timestampMs` the creation
instant. -/
structure AttendanceRecord where
  studentId : String
  studentName : String
  courseCode : String
  date : ℕ
  status : String
  confidenceScore : ℚ
  isLate : Bool
  lateMinutes : ℕ
  timestampMs : ℕ
deriving DecidableEq, Repr

/-- A notification document (notification schema, App.js 5089-5102). -/
structure Notif where
  userId : String
  title : String
  message : String
  ntype : String
  courseCode : Option String
deriving DecidableEq, Repr

/-- The key constrained by the unique index
`attendanceSchema.index({studentId: 1, courseCode: 1, date: 1}, {unique: true})`
(App.js 5105). -/
def recKey (r : AttendanceRecord) : String × String × ℕ :=
  (r.studentId, r.courseCode, r.date)

/-- Whether the ledger already holds a record with the given key. -/
def hasKey (led : List AttendanceRecord) (k : String × String × ℕ) : Bool :=
  led.any (fun r => decide (recKey r = k))

/-- The single error the modelled store can report at commit time: the
duplicate-key violation that MongoDB surfaces as `error.code === 11000`. -/
inductive SaveError where
  | dupKey
deriving DecidableEq, Repr

/-- The semantics of `attendance.save()` under the unique index of
App.js 5105: the insert commits unless a record with the same
(studentId, courseCode, date) key is already present, in which case it
fails atomically with the duplicate-key error. -/
def tryInsert (led : List AttendanceRecord) (r : AttendanceRecord) :
    Except SaveError (List AttendanceRecord) :=
  if hasKey led (recKey r) then .error .dupKey else .ok (led ++ [r])

/-- The utility `createNotification` (App.js 5199-5212): builds and saves a notification
document; a save failure is caught, logged and discarded, leaving the
collection unchanged. `fails` models whether the save throws. -/
def createNotification (notifs : List Notif) (fails : Bool)
    (userId title message ntype : String) (courseCode : Option String) : List Notif :=
  if fails then notifs else notifs ++ [⟨userId, title, message, ntype, courseCode⟩]

/-- The persistent collections the endpoints read and write. -/
structure DB where
  users : List Student
  courses : List Course
  attendance : List AttendanceRecord
  notifications : List Notif
deriving DecidableEq, Repr

/-- The lookup `User.findOne` with studentId, student role and isActive
(App.js 5545, 5949-5953). -/
def findStudent (users : List Student) (sid : String) : Option Student :=
  users.find? (fun s => s.studentId == sid && s.isActive)

/-- The lookup `Course.findOne` with courseCode and isActive (App.js 5553, 5969-5972). -/
def findCourse (courses : List Course) (cc : String) : Option Course :=
  courses.find? (fun c => c.courseCode == cc && c.isActive)

/-- The lookup `Attendance.findOne` with studentId, courseCode and date
(App.js 5559, 5982-5986). -/
def findDup (att : List AttendanceRecord) (sid cc : String) (d : ℕ) :
    Option AttendanceRecord :=
  att.find? (fun r => r.studentId == sid && r.courseCode == cc && r.date == d)

/-- Observable events of one request: the Similarity Oracle invocation, the
successful commit of the attendance record, and the notification attempt. -/
inductive Event where
  | oracleCall
  | commit
  | notify
deriving DecidableEq, Repr

/-- An HTTP response: status code, success flag, error message, and the
saved record echoed on success. -/
structure Resp where
  status : ℕ
  ok : Bool
  error : Option String
  data : Option AttendanceRecord
deriving DecidableEq, Repr

/-- An error response `res.status(st).json({success: false, error: msg})`. -/
def reject (st : ℕ) (msg : String) : Resp :=
  ⟨st, false, some msg, none⟩

/-- The observable outcome of one request: the response, the attendance and
notification collections afterwards, and the event trace. -/
structure Out where
  resp : Resp
  attendance : List AttendanceRecord
  notifications : List Notif
  trace : List Event
deriving DecidableEq, Repr

/-- The per-request context: the store as seen by the lookups, the records
committed by concurrent racing requests between the duplicate check and the
save (`race`), the authenticated student id, the submission instant, the
09:00 class start instant, and whether the notification save fails. -/
structure Ctx where
  db : DB
  race : List AttendanceRecord
  sid : String
  nowMs : ℕ
  startMs : ℕ
  notifFails : Bool
deriving DecidableEq, Repr

/-- Uppercase normalization `courseCode.toUpperCase()` (structural form
of `String.map Char.toUpper`, which the source applies through the
uppercase course-code normalization). -/
def toUpperCase (s : String) : String := String.mk (s.data.map Char.toUpper)

/-- The similarity acceptance threshold of `POST /api/student/attendance`
(App.js 6011): the literal 0.85, written as `mkRat 85 100` so that concrete
evaluation reduces in the kernel. -/
def SIMILARITY_THRESHOLD_attendance : ℚ := mkRat 85 100

/-- The similarity acceptance threshold of `POST /api/student/attendance-image`
(App.js 5575): the literal 0.85. -/
def SIMILARITY_THRESHOLD_attendanceImage : ℚ := mkRat 85 100

/-- The endpoint `POST /api/student/attendance` (App.js 5937-6094), the embedding-based
endpoint. `courseCode` and `faceData` are the request body fields (`none`
models a missing/falsy field), `oracle` is the similarity computation
applied to the stored encodings and the submitted data
(`computeCosineSimilarity` in the source). Checks appear in source order;
the save is attempted against the store extended by racing commits, and a
duplicate-key failure is remapped by the `error.code === 11000` branch of
the catch block (App.js 6082-6087) to the 400 already-marked rejection. -/
def postAttendance (ctx : Ctx) (courseCode : Option String)
    (faceData : Option (List ℚ)) (oracle : List ℚ → List ℚ → ℚ) : Out :=
  let ledAtSave := ctx.db.attendance ++ ctx.race
  let noWrite := fun (r : Resp) (tr : List Event) =>
    Out.mk r ledAtSave ctx.db.notifications tr
  match courseCode with
  | none => noWrite (reject 400 "Course code is required") []
  | some cc =>
    match findStudent ctx.db.users ctx.sid with
    | none => noWrite (reject 404 "Student not found") []
    | some student =>
      if !student.enrolledCourses.contains (toUpperCase cc) then
        noWrite (reject 400 "You are not enrolled in this course") []
      else
        match findCourse ctx.db.courses (toUpperCase cc) with
        | none => noWrite (reject 404 "Course not found") []
        | some _course =>
          let today := utcDateKey ctx.nowMs
          match findDup ctx.db.attendance ctx.sid (toUpperCase cc) today with
          | some _ =>
            noWrite (reject 400 "Attendance already marked for today in this course") []
          | none =>
            if student.faceEncodings.length = 0 then
              noWrite (reject 400 "No registered face encodings found. Please register your face first.") []
            else
              match faceData with
              | none => noWrite (reject 400 "Invalid or missing face data for verification") []
              | some fd =>
                if fd.length ≠ student.faceEncodings.length then
                  noWrite (reject 400 "Invalid or missing face data for verification") []
                else
                  let similarity := oracle student.faceEncodings fd
                  if similarity < SIMILARITY_THRESHOLD_attendance then
                    noWrite (reject 400 "Face verification failed. Please try again.") [.oracleCall]
                  else
                    let cls := classify ctx.nowMs ctx.startMs
                    let record : AttendanceRecord :=
                      ⟨ctx.sid, student.studentName, (toUpperCase cc), today,
                        cls.1, similarity, cls.2.1, cls.2.2, ctx.nowMs⟩
                    match tryInsert ledAtSave record with
                    | .error _ =>
                      noWrite (reject 400 "Attendance already marked for today") [.oracleCall]
                    | .ok led2 =>
                      let notifs2 :=
                        if cls.2.1 then
                          createNotification ctx.db.notifications ctx.notifFails ctx.sid
                            "Late Attendance Recorded"
                            ("You were marked late for " ++ cc ++ " by " ++
                              toString cls.2.2 ++ " minutes.")
                            "warning" (some (toUpperCase cc))
                        else ctx.db.notifications
                      Out.mk ⟨200, true, none, some record⟩ led2 notifs2
                        ([.oracleCall, .commit] ++ if cls.2.1 then [.notify] else [])

/-- The endpoint `POST /api/student/attendance-image` (App.js 5533-5632), the image-based
endpoint. `oracleResult` is the outcome of the `faceppCompare` call
(`.error` models a thrown verification error, caught at App.js 5571-5573).
The catch block of this endpoint (App.js 5628-5631) has no
`error.code === 11000` branch, so a duplicate-key failure at save time
falls through to the generic 500 response. -/
def postAttendanceImage (ctx : Ctx) (courseCode : Option String)
    (imageBase64 : Option String) (oracleResult : Except String ℚ) : Out :=
  let ledAtSave := ctx.db.attendance ++ ctx.race
  let noWrite := fun (r : Resp) (tr : List Event) =>
    Out.mk r ledAtSave ctx.db.notifications tr
  match courseCode with
  | none => noWrite (reject 400 "Course code is required") []
  | some cc =>
    match imageBase64 with
    | none => noWrite (reject 400 "imageBase64 is required") []
    | some _img =>
      match findStudent ctx.db.users ctx.sid with
      | none => noWrite (reject 404 "Student not found") []
      | some student =>
        if !student.enrolledCourses.contains (toUpperCase cc) then
          noWrite (reject 400 "You are not enrolled in this course") []
        else
          match findCourse ctx.db.courses (toUpperCase cc) with
          | none => noWrite (reject 404 "Course not found") []
          | some _course =>
            let today := utcDateKey ctx.nowMs
            match findDup ctx.db.attendance ctx.sid (toUpperCase cc) today with
            | some _ =>
              noWrite (reject 400 "Attendance already marked for today in this course") []
            | none =>
              match student.faceToken with
              | none =>
                noWrite (reject 400 "No registered face found. Please register your face first.") []
              | some _tok =>
                match oracleResult with
                | .error _ =>
                  noWrite (reject 400 "Face verification failed. Please try again.") [.oracleCall]
                | .ok similarity =>
                  if similarity < SIMILARITY_THRESHOLD_attendanceImage then
                    noWrite (reject 400 "Face verification failed. Please try again.") [.oracleCall]
                  else
                    let cls := classify ctx.nowMs ctx.startMs
                    let record : AttendanceRecord :=
                      ⟨ctx.sid, student.studentName, (toUpperCase cc), today,
                        cls.1, similarity, cls.2.1, cls.2.2, ctx.nowMs⟩
                    match tryInsert ledAtSave record with
                    | .error _ =>
                      noWrite (reject 500 "Failed to mark attendance. Please try again.") [.oracleCall]
                    | .ok led2 =>
                      let notifs2 :=
                        if cls.2.1 then
                          createNotification ctx.db.notifications ctx.notifFails ctx.sid
                            "Late Attendance Recorded"
                            ("You were marked late for " ++ cc ++ " by " ++
                              toString cls.2.2 ++ " minutes.")
                            "warning" (some (toUpperCase cc))
                        else ctx.db.notifications
                      Out.mk ⟨200, true, none, some record⟩ led2 notifs2
                        ([.oracleCall, .commit] ++ if cls.2.1 then [.notify] else [])

/-- At most one attendance record per (studentId, courseCode, date): the
invariant enforced by the unique index of App.js 5105. -/
def NoDupKey (led : List AttendanceRecord) : Prop :=
  led.Pairwise (fun r s => recKey r ≠ recKey s)

/-- N submission attempts whose serialization point is the store: the
inserts execute in some order, each committing or failing against the
ledger produced by the earlier ones. Returns the final ledger and the
number of successful commits. -/
def runInserts (led : List AttendanceRecord) :
    List AttendanceRecord → List AttendanceRecord × ℕ
  | [] => (led, 0)
  | r :: rest =>
    match tryInsert led r with
    | .ok led2 =>
      let p := runInserts led2 rest
      (p.1, p.2 + 1)
    | .error _ => runInserts led rest

end AttendanceApp

namespace AttendanceApp

/-! ## General lemmas about the embedded operations -/

/-- On-time and in-grace classification: present with no lateness. -/
lemma classify_present (nowMs startMs : ℕ)
    (h : nowMs ≤ startMs ∨ (nowMs - startMs) / 60000 ≤ 15) :
    classify nowMs startMs = ("present", false, 0) := by
  simp only [classify]
  split
  · next hlt => rw [if_neg (by omega)]
  · rfl

/-- Beyond-grace classification: late with the elapsed whole minutes. -/
lemma classify_late (nowMs startMs : ℕ)
    (h : 15 < (nowMs - startMs) / 60000) :
    classify nowMs startMs = ("late", true, (nowMs - startMs) / 60000) := by
  simp only [classify]
  rw [if_pos (by omega), if_pos h]

/-- Any record echoed by the embedding endpoint carries exactly the
classification of the submission instant. -/
lemma postAttendance_data_classify (ctx : Ctx) (cc : Option String)
    (fd : Option (List ℚ)) (oracle : List ℚ → List ℚ → ℚ) (r : AttendanceRecord)
    (h : (postAttendance ctx cc fd oracle).resp.data = some r) :
    (r.status, r.isLate, r.lateMinutes) = classify ctx.nowMs ctx.startMs := by
  revert h
  simp only [postAttendance]
  repeat' split
  all_goals intro h
  all_goals simp [reject] at h
  all_goals subst h
  all_goals rfl

/-- Any record echoed by the image endpoint carries exactly the
classification of the submission instant. -/
lemma postAttendanceImage_data_classify (ctx : Ctx) (cc img : Option String)
    (orc : Except String ℚ) (r : AttendanceRecord)
    (h : (postAttendanceImage ctx cc img orc).resp.data = some r) :
    (r.status, r.isLate, r.lateMinutes) = classify ctx.nowMs ctx.startMs := by
  revert h
  simp only [postAttendanceImage]
  repeat' split
  all_goals intro h
  all_goals simp [reject] at h
  all_goals subst h
  all_goals rfl

/-- A successful conditional insert of a fresh key preserves key
uniqueness. -/
lemma tryInsert_ok_noDup (led led2 : List AttendanceRecord) (r : AttendanceRecord)
    (h : tryInsert led r = .ok led2) (hnd : NoDupKey led) : NoDupKey led2 := by
  unfold tryInsert at h
  split at h
  · exact absurd h (by simp)
  · next hk =>
    cases h
    unfold NoDupKey at *
    rw [List.pairwise_append]
    refine ⟨hnd, by simp, ?_⟩
    intro a ha b hb
    simp only [List.mem_singleton] at hb
    subst hb
    simp only [hasKey, List.any_eq_true, not_exists, not_and] at hk
    push_neg at hk
    intro hcontra
    exact absurd (by simpa using hk a ha) (by simp [hcontra])

/-- A failed conditional insert leaves the ledger unchanged. -/
lemma tryInsert_error (led : List AttendanceRecord) (r : AttendanceRecord)
    (h : hasKey led (recKey r) = true) : tryInsert led r = .error .dupKey := by
  simp [tryInsert, h]

/-- Appending a record makes its key present. -/
lemma hasKey_append (led : List AttendanceRecord) (r : AttendanceRecord) (k : String × String × ℕ)
    (h : recKey r = k) : hasKey (led ++ [r]) k = true := by
  simp [hasKey, List.any_append, h]

/-- Once the key is present, every further insert of that key fails and the
commit count stays zero. -/
lemma runInserts_key_present (rs : List AttendanceRecord) :
    ∀ (led : List AttendanceRecord) (k : String × String × ℕ),
    (∀ r ∈ rs, recKey r = k) → hasKey led k = true →
    (runInserts led rs).2 = 0 := by
  induction rs with
  | nil => intro led k _ _; rfl
  | cons r rest ih =>
    intro led k hall hk
    have hr : recKey r = k := hall r (by simp)
    have : tryInsert led r = .error .dupKey := tryInsert_error led r (hr ▸ hk)
    simp only [runInserts, this]
    exact ih led k (fun x hx => hall x (by simp [hx])) hk

/-! ## Sample data used by the concrete evaluations -/

/-- A sample enrolled, active student with a stored embedding and token. -/
def sStudent : Student := ⟨"S1", "Alice", true, ["ICT651"], [1, 0], some "tok"⟩

/-- A sample active course. -/
def sCourse : Course := ⟨"ICT651", true⟩

/-- A sample store holding the student and course and empty ledgers. -/
def sDB : DB := ⟨[sStudent], [sCourse], [], []⟩

/-- A sample request context: submission at 09:20 UTC with class start at
09:00 on the epoch day. -/
def sCtx : Ctx := ⟨sDB, [], "S1", 33600000, 32400000, false⟩

/-- Sample context with submission at 09:10. -/
def sCtxOnTime : Ctx := ⟨sDB, [], "S1", 33000000, 32400000, false⟩

/-- A record committed by a concurrent request for the same key as the
sample context computes. -/
def raceRec : AttendanceRecord :=
  ⟨"S1", "Alice", "ICT651", 0, "present", mkRat 9 10, false, 0, 33500000⟩

/-- Sample context in which a racing commit landed between the duplicate
check and the save. -/
def sCtxRace : Ctx := ⟨sDB, [raceRec], "S1", 33600000, 32400000, false⟩

/-! ## C1 -/

/-- C1: at most one AttendanceRecord per (studentId, courseCode, date) —
both endpoints preserve the uniqueness invariant of the ledger, and of N
serialized insert attempts for one key starting from a ledger without that
key, exactly one commit succeeds. -/
theorem C1_uniqueness_invariant :
    (∀ (ctx : Ctx) (cc : Option String) (fd : Option (List ℚ))
        (oracle : List ℚ → List ℚ → ℚ),
      NoDupKey (ctx.db.attendance ++ ctx.race) →
      NoDupKey (postAttendance ctx cc fd oracle).attendance) ∧
    (∀ (ctx : Ctx) (cc img : Option String) (orc : Except String ℚ),
      NoDupKey (ctx.db.attendance ++ ctx.race) →
      NoDupKey (postAttendanceImage ctx cc img orc).attendance) ∧
    (∀ (led : List AttendanceRecord) (rs : List AttendanceRecord)
        (k : String × String × ℕ),
      rs ≠ [] → (∀ r ∈ rs, recKey r = k) → hasKey led k = false →
      (runInserts led rs).2 = 1) := by
  refine ⟨?_, ?_, ?_⟩
  · intro ctx cc fd oracle hnd
    simp only [postAttendance]
    repeat' split
    all_goals first
      | exact hnd
      | exact tryInsert_ok_noDup _ _ _ (by assumption) hnd
  · intro ctx cc img orc hnd
    simp only [postAttendanceImage]
    repeat' split
    all_goals first
      | exact hnd
      | exact tryInsert_ok_noDup _ _ _ (by assumption) hnd
  · intro led rs k hne hall hk
    match rs, hne with
    | r :: rest, _ =>
      have hr : recKey r = k := hall r (by simp)
      have hins : tryInsert led r = .ok (led ++ [r]) := by
        simp [tryInsert, hr ▸ hk]
      simp only [runInserts, hins]
      have : (runInserts (led ++ [r]) rest).2 = 0 :=
        runInserts_key_present rest (led ++ [r]) k
          (fun x hx => hall x (by simp [hx])) (hasKey_append led r k hr)
      omega

/-- Witness for C1 at concrete inputs: the sample embedding-based request
preserves the invariant on the empty ledger, and of two serialized insert
attempts for the same key exactly one commits. -/
theorem C1_uniqueness_invariant_witness :
    NoDupKey (postAttendance sCtx (some "ICT651") (some [1, 0]) (fun _ _ => mkRat 9 10)).attendance ∧
    (runInserts [] [raceRec, ⟨"S1", "Alice", "ICT651", 0, "late", mkRat 9 10, true, 20, 33600000⟩]).2 = 1 := by
  constructor
  · exact C1_uniqueness_invariant.1 sCtx (some "ICT651") (some [1, 0]) (fun _ _ => mkRat 9 10)
      (by simp [sCtx, sDB, NoDupKey])
  · exact C1_uniqueness_invariant.2.2 []
      [raceRec, ⟨"S1", "Alice", "ICT651", 0, "late", mkRat 9 10, true, 20, 33600000⟩]
      ("S1", "ICT651", 0) (by simp) (by decide) (by decide)

/-! ## C2 -/

/-- C2: for every accepted submission, the stored record carries the shared
classification: present with no lateness when the submission is at or
before class start or within 15 whole elapsed minutes of it, late with
lateMinutes equal to the elapsed whole minutes when more than 15 whole
minutes have elapsed; both endpoints store exactly this classification. -/
theorem C2_lateness_classification :
    (∀ nowMs startMs : ℕ,
      ((nowMs ≤ startMs ∨ (nowMs - startMs) / 60000 ≤ 15) →
        classify nowMs startMs = ("present", false, 0)) ∧
      (15 < (nowMs - startMs) / 60000 →
        classify nowMs startMs = ("late", true, (nowMs - startMs) / 60000))) ∧
    (∀ (ctx : Ctx) (cc : Option String) (fd : Option (List ℚ))
        (oracle : List ℚ → List ℚ → ℚ) (r : AttendanceRecord),
      (postAttendance ctx cc fd oracle).resp.data = some r →
      (r.status, r.isLate, r.lateMinutes) = classify ctx.nowMs ctx.startMs) ∧
    (∀ (ctx : Ctx) (cc img : Option String) (orc : Except String ℚ)
        (r : AttendanceRecord),
      (postAttendanceImage ctx cc img orc).resp.data = some r →
      (r.status, r.isLate, r.lateMinutes) = classify ctx.nowMs ctx.startMs) := by
  refine ⟨?_, ?_, ?_⟩
  · intro nowMs startMs
    exact ⟨classify_present nowMs startMs, classify_late nowMs startMs⟩
  · exact postAttendance_data_classify
  · exact postAttendanceImage_data_classify

/-- Witness for C2 at concrete instants: at 09:20 the classification is
late with 20 late minutes, at 09:10 present, and the sample 09:20 request
stores the late classification. -/
theorem C2_lateness_classification_witness :
    classify 33600000 32400000 = ("late", true, 20) ∧
    classify 33000000 32400000 = ("present", false, 0) ∧
    (⟨"late", true, 20⟩ : String × Bool × ℕ) = classify sCtx.nowMs sCtx.startMs := by
  refine ⟨?_, ?_, ?_⟩
  · have h := (C2_lateness_classification.1 33600000 32400000).2 (by norm_num)
    simpa using h
  · exact (C2_lateness_classification.1 33000000 32400000).1 (Or.inr (by norm_num))
  · exact C2_lateness_classification.2.1 sCtx (some "ICT651") (some [1, 0])
      (fun _ _ => mkRat 9 10) ⟨"S1", "Alice", "ICT651", 0, "late", mkRat 9 10, true, 20, 33600000⟩
      (by decide)

/-! ## C10 -/

/-- C10: every rejection on either endpoint leaves the attendance and
notification collections exactly as they were (apart from racing commits by
other requests, which the rejected request does not touch). -/
theorem C10_rejection_atomic :
    (∀ (ctx : Ctx) (cc : Option String) (fd : Option (List ℚ))
        (oracle : List ℚ → List ℚ → ℚ),
      (postAttendance ctx cc fd oracle).resp.ok = false →
      (postAttendance ctx cc fd oracle).attendance = ctx.db.attendance ++ ctx.race ∧
      (postAttendance ctx cc fd oracle).notifications = ctx.db.notifications) ∧
    (∀ (ctx : Ctx) (cc img : Option String) (orc : Except String ℚ),
      (postAttendanceImage ctx cc img orc).resp.ok = false →
      (postAttendanceImage ctx cc img orc).attendance = ctx.db.attendance ++ ctx.race ∧
      (postAttendanceImage ctx cc img orc).notifications = ctx.db.notifications) := by
  constructor
  · intro ctx cc fd oracle
    simp only [postAttendance]
    repeat' split
    all_goals intro h
    all_goals first
      | exact ⟨rfl, rfl⟩
      | simp [reject] at h
  · intro ctx cc img orc
    simp only [postAttendanceImage]
    repeat' split
    all_goals intro h
    all_goals first
      | exact ⟨rfl, rfl⟩
      | simp [reject] at h

/-- Witness for C10: a request with a missing course code is rejected and
writes nothing. -/
theorem C10_rejection_atomic_witness :
    (postAttendance sCtx none (some [1, 0]) (fun _ _ => mkRat 9 10)).attendance =
      sCtx.db.attendance ++ sCtx.race ∧
    (postAttendance sCtx none (some [1, 0]) (fun _ _ => mkRat 9 10)).notifications =
      sCtx.db.notifications := by
  exact C10_rejection_atomic.1 sCtx none (some [1, 0]) (fun _ _ => mkRat 9 10) (by decide)

end AttendanceApp

namespace AttendanceApp

/-! ## Additional sample data -/

/-- Sample store whose ledger already holds a record for the key the sample
request computes (duplicate present at check time). -/
def sCtxDup : Ctx := ⟨⟨[sStudent], [sCourse], [raceRec], []⟩, [], "S1", 33600000, 32400000, false⟩

/-! ## C3 -/

/-- C3: the similarity threshold is the fixed constant 0.85, identical for
both endpoints and not configurable per request; for every submission
reaching the verification step, a score strictly below 0.85 is rejected
with the generic verification-failed 400, and a score of at least 0.85
(including exactly 0.85) is never rejected with that outcome. -/
theorem C3_similarity_threshold :
    SIMILARITY_THRESHOLD_attendance = 0.85 ∧
    SIMILARITY_THRESHOLD_attendanceImage = SIMILARITY_THRESHOLD_attendance ∧
    (∀ (ctx : Ctx) (cc : String) (student : Student) (course : Course)
        (fd : List ℚ) (oracle : List ℚ → List ℚ → ℚ),
      findStudent ctx.db.users ctx.sid = some student →
      student.enrolledCourses.contains (toUpperCase cc) = true →
      findCourse ctx.db.courses (toUpperCase cc) = some course →
      findDup ctx.db.attendance ctx.sid (toUpperCase cc) (utcDateKey ctx.nowMs) = none →
      student.faceEncodings.length ≠ 0 →
      fd.length = student.faceEncodings.length →
      ((oracle student.faceEncodings fd < SIMILARITY_THRESHOLD_attendance →
          (postAttendance ctx (some cc) (some fd) oracle).resp =
            reject 400 "Face verification failed. Please try again.") ∧
       (SIMILARITY_THRESHOLD_attendance ≤ oracle student.faceEncodings fd →
          (postAttendance ctx (some cc) (some fd) oracle).resp.error ≠
            some "Face verification failed. Please try again."))) ∧
    (∀ (ctx : Ctx) (cc img : String) (student : Student) (course : Course)
        (tok : String) (s : ℚ),
      findStudent ctx.db.users ctx.sid = some student →
      student.enrolledCourses.contains (toUpperCase cc) = true →
      findCourse ctx.db.courses (toUpperCase cc) = some course →
      findDup ctx.db.attendance ctx.sid (toUpperCase cc) (utcDateKey ctx.nowMs) = none →
      student.faceToken = some tok →
      ((s < SIMILARITY_THRESHOLD_attendanceImage →
          (postAttendanceImage ctx (some cc) (some img) (.ok s)).resp =
            reject 400 "Face verification failed. Please try again.") ∧
       (SIMILARITY_THRESHOLD_attendanceImage ≤ s →
          (postAttendanceImage ctx (some cc) (some img) (.ok s)).resp.error ≠
            some "Face verification failed. Please try again."))) := by
  refine ⟨by norm_num [SIMILARITY_THRESHOLD_attendance, Rat.mkRat_eq_div], rfl, ?_, ?_⟩
  · intro ctx cc student course fd oracle hstud henr hcourse hdup henc hlen
    have henr2 : toUpperCase cc ∈ student.enrolledCourses := by simpa using henr
    constructor
    · intro hlt
      simp [postAttendance, hstud, henr2, hcourse, hdup, henc, hlen, hlt]
    · intro hge
      have hnlt : ¬ oracle student.faceEncodings fd < SIMILARITY_THRESHOLD_attendance :=
        not_lt.2 hge
      cases htry : tryInsert (ctx.db.attendance ++ ctx.race)
          ⟨ctx.sid, student.studentName, toUpperCase cc, utcDateKey ctx.nowMs,
            (classify ctx.nowMs ctx.startMs).1, oracle student.faceEncodings fd,
            (classify ctx.nowMs ctx.startMs).2.1, (classify ctx.nowMs ctx.startMs).2.2,
            ctx.nowMs⟩ with
      | error e =>
        simp [postAttendance, hstud, henr2, hcourse, hdup, henc, hlen, hnlt, htry, reject]
      | ok led2 =>
        simp [postAttendance, hstud, henr2, hcourse, hdup, henc, hlen, hnlt, htry]
  · intro ctx cc img student course tok s hstud henr hcourse hdup htok
    have henr2 : toUpperCase cc ∈ student.enrolledCourses := by simpa using henr
    constructor
    · intro hlt
      simp [postAttendanceImage, hstud, henr2, hcourse, hdup, htok, hlt]
    · intro hge
      have hnlt : ¬ s < SIMILARITY_THRESHOLD_attendanceImage := not_lt.2 hge
      cases htry : tryInsert (ctx.db.attendance ++ ctx.race)
          ⟨ctx.sid, student.studentName, toUpperCase cc, utcDateKey ctx.nowMs,
            (classify ctx.nowMs ctx.startMs).1, s,
            (classify ctx.nowMs ctx.startMs).2.1, (classify ctx.nowMs ctx.startMs).2.2,
            ctx.nowMs⟩ with
      | error e =>
        simp [postAttendanceImage, hstud, henr2, hcourse, hdup, htok, hnlt, htry, reject]
      | ok led2 =>
        simp [postAttendanceImage, hstud, henr2, hcourse, hdup, htok, hnlt, htry]

/-- Witness for C3 at concrete inputs: a score of exactly 0.85 passes the
verification gate on the embedding endpoint, 0.8499999 is rejected with the
generic verification failure, and the image endpoint rejects 0.8499999 the
same way. -/
theorem C3_similarity_threshold_witness :
    (postAttendance sCtx (some "ICT651") (some [1, 0])
        (fun _ _ => mkRat 85 100)).resp.error ≠
      some "Face verification failed. Please try again." ∧
    (postAttendance sCtx (some "ICT651") (some [1, 0])
        (fun _ _ => mkRat 8499999 10000000)).resp =
      reject 400 "Face verification failed. Please try again." ∧
    (postAttendanceImage sCtx (some "ICT651") (some "img")
        (.ok (mkRat 8499999 10000000))).resp =
      reject 400 "Face verification failed. Please try again." := by
  refine ⟨?_, ?_, ?_⟩
  · exact (C3_similarity_threshold.2.2.1 sCtx "ICT651" sStudent sCourse [1, 0]
      (fun _ _ => mkRat 85 100) (by decide) (by decide) (by decide) (by decide)
      (by decide) (by decide)).2 (by decide)
  · exact (C3_similarity_threshold.2.2.1 sCtx "ICT651" sStudent sCourse [1, 0]
      (fun _ _ => mkRat 8499999 10000000) (by decide) (by decide) (by decide) (by decide)
      (by decide) (by decide)).1 (by decide)
  · exact (C3_similarity_threshold.2.2.2 sCtx "ICT651" "img" sStudent sCourse "tok"
      (mkRat 8499999 10000000) (by decide) (by decide) (by decide) (by decide)
      (by decide)).1 (by decide)

/-! ## C4 -/

/-- C4 counterexample: on the image endpoint, a commit that loses the race
(the duplicate appears between the duplicate check and the save) is
answered with the generic 500 server fault, not the 400 already-marked
rejection the claim requires for both endpoints. -/
theorem C4_race_counterexample :
    (postAttendanceImage sCtxRace (some "ICT651") (some "img")
        (.ok (mkRat 9 10))).resp =
      reject 500 "Failed to mark attendance. Please try again." ∧
    (500 : ℕ) ≠ 400 := by
  exact ⟨by decide, by decide⟩

/-- C4 (amended): a commit-time uniqueness violation is remapped to the 400
already-marked rejection on the embedding-based endpoint (whose catch block
checks `error.code === 11000`), but on the image-based endpoint it falls
through the catch-all and is surfaced as the generic 500 server fault. -/
theorem C4_commit_race_handling :
    (∀ (ctx : Ctx) (cc : String) (student : Student) (course : Course)
        (fd : List ℚ) (oracle : List ℚ → List ℚ → ℚ),
      findStudent ctx.db.users ctx.sid = some student →
      student.enrolledCourses.contains (toUpperCase cc) = true →
      findCourse ctx.db.courses (toUpperCase cc) = some course →
      findDup ctx.db.attendance ctx.sid (toUpperCase cc) (utcDateKey ctx.nowMs) = none →
      student.faceEncodings.length ≠ 0 →
      fd.length = student.faceEncodings.length →
      SIMILARITY_THRESHOLD_attendance ≤ oracle student.faceEncodings fd →
      hasKey (ctx.db.attendance ++ ctx.race)
        (ctx.sid, toUpperCase cc, utcDateKey ctx.nowMs) = true →
      (postAttendance ctx (some cc) (some fd) oracle).resp =
        reject 400 "Attendance already marked for today") ∧
    (∀ (ctx : Ctx) (cc img : String) (student : Student) (course : Course)
        (tok : String) (s : ℚ),
      findStudent ctx.db.users ctx.sid = some student →
      student.enrolledCourses.contains (toUpperCase cc) = true →
      findCourse ctx.db.courses (toUpperCase cc) = some course →
      findDup ctx.db.attendance ctx.sid (toUpperCase cc) (utcDateKey ctx.nowMs) = none →
      student.faceToken = some tok →
      SIMILARITY_THRESHOLD_attendanceImage ≤ s →
      hasKey (ctx.db.attendance ++ ctx.race)
        (ctx.sid, toUpperCase cc, utcDateKey ctx.nowMs) = true →
      (postAttendanceImage ctx (some cc) (some img) (.ok s)).resp =
        reject 500 "Failed to mark attendance. Please try again.") := by
  constructor
  · intro ctx cc student course fd oracle hstud henr hcourse hdup henc hlen hge hkey
    have henr2 : toUpperCase cc ∈ student.enrolledCourses := by simpa using henr
    have hnlt : ¬ oracle student.faceEncodings fd < SIMILARITY_THRESHOLD_attendance :=
      not_lt.2 hge
    have htry : tryInsert (ctx.db.attendance ++ ctx.race)
        ⟨ctx.sid, student.studentName, toUpperCase cc, utcDateKey ctx.nowMs,
          (classify ctx.nowMs ctx.startMs).1, oracle student.faceEncodings fd,
          (classify ctx.nowMs ctx.startMs).2.1, (classify ctx.nowMs ctx.startMs).2.2,
          ctx.nowMs⟩ = .error .dupKey := tryInsert_error _ _ hkey
    simp [postAttendance, hstud, henr2, hcourse, hdup, henc, hlen, hnlt, htry, reject]
  · intro ctx cc img student course tok s hstud henr hcourse hdup htok hge hkey
    have henr2 : toUpperCase cc ∈ student.enrolledCourses := by simpa using henr
    have hnlt : ¬ s < SIMILARITY_THRESHOLD_attendanceImage := not_lt.2 hge
    have htry : tryInsert (ctx.db.attendance ++ ctx.race)
        ⟨ctx.sid, student.studentName, toUpperCase cc, utcDateKey ctx.nowMs,
          (classify ctx.nowMs ctx.startMs).1, s,
          (classify ctx.nowMs ctx.startMs).2.1, (classify ctx.nowMs ctx.startMs).2.2,
          ctx.nowMs⟩ = .error .dupKey := tryInsert_error _ _ hkey
    simp [postAttendanceImage, hstud, henr2, hcourse, hdup, htok, hnlt, htry, reject]

/-- Witness for C4 (amended) at the concrete racing context: the embedding
endpoint answers 400 already-marked, the image endpoint answers 500. -/
theorem C4_commit_race_handling_witness :
    (postAttendance sCtxRace (some "ICT651") (some [1, 0])
        (fun _ _ => mkRat 9 10)).resp =
      reject 400 "Attendance already marked for today" ∧
    (postAttendanceImage sCtxRace (some "ICT651") (some "img")
        (.ok (mkRat 9 10))).resp =
      reject 500 "Failed to mark attendance. Please try again." := by
  constructor
  · exact C4_commit_race_handling.1 sCtxRace "ICT651" sStudent sCourse [1, 0]
      (fun _ _ => mkRat 9 10) (by decide) (by decide) (by decide) (by decide)
      (by decide) (by decide) (by decide) (by decide)
  · exact C4_commit_race_handling.2 sCtxRace "ICT651" "img" sStudent sCourse "tok"
      (mkRat 9 10) (by decide) (by decide) (by decide) (by decide) (by decide)
      (by decide) (by decide)

end AttendanceApp

namespace AttendanceApp

/-! ## C7 -/

/-- C7: the Similarity Oracle is never invoked for a submission rejected on
a cheaper prior check (missing fields, unknown student or course, not
enrolled, duplicate at check time, no stored face reference), and whenever
a commit happens the Oracle call strictly precedes it — it is the last gate
before commit. -/
theorem C7_oracle_last_gate :
    (∀ (ctx : Ctx) (cc : Option String) (fd : Option (List ℚ))
        (oracle : List ℚ → List ℚ → ℚ) (m : String),
      (postAttendance ctx cc fd oracle).resp.error = some m →
      m ∈ (["Course code is required", "Student not found",
            "You are not enrolled in this course", "Course not found",
            "Attendance already marked for today in this course",
            "No registered face encodings found. Please register your face first.",
            "Invalid or missing face data for verification"] : List String) →
      Event.oracleCall ∉ (postAttendance ctx cc fd oracle).trace) ∧
    (∀ (ctx : Ctx) (cc : Option String) (fd : Option (List ℚ))
        (oracle : List ℚ → List ℚ → ℚ),
      Event.commit ∈ (postAttendance ctx cc fd oracle).trace →
      ∃ tl, (postAttendance ctx cc fd oracle).trace =
        Event.oracleCall :: Event.commit :: tl) ∧
    (∀ (ctx : Ctx) (cc img : Option String) (orc : Except String ℚ) (m : String),
      (postAttendanceImage ctx cc img orc).resp.error = some m →
      m ∈ (["Course code is required", "imageBase64 is required",
            "Student not found", "You are not enrolled in this course",
            "Course not found",
            "Attendance already marked for today in this course",
            "No registered face found. Please register your face first."] : List String) →
      Event.oracleCall ∉ (postAttendanceImage ctx cc img orc).trace) ∧
    (∀ (ctx : Ctx) (cc img : Option String) (orc : Except String ℚ),
      Event.commit ∈ (postAttendanceImage ctx cc img orc).trace →
      ∃ tl, (postAttendanceImage ctx cc img orc).trace =
        Event.oracleCall :: Event.commit :: tl) := by
  refine ⟨?_, ?_, ?_, ?_⟩
  · intro ctx cc fd oracle m
    simp only [postAttendance]
    repeat' split
    all_goals intro h hm
    all_goals simp [reject] at h
    all_goals try simp
    all_goals subst h
    all_goals exact absurd hm (by decide)
  · intro ctx cc fd oracle
    simp only [postAttendance]
    repeat' split
    all_goals intro h
    all_goals simp at h
    all_goals exact ⟨_, rfl⟩
  · intro ctx cc img orc m
    simp only [postAttendanceImage]
    repeat' split
    all_goals intro h hm
    all_goals simp [reject] at h
    all_goals try simp
    all_goals subst h
    all_goals exact absurd hm (by decide)
  · intro ctx cc img orc
    simp only [postAttendanceImage]
    repeat' split
    all_goals intro h
    all_goals simp at h
    all_goals exact ⟨_, rfl⟩

/-- Witness for C7 at concrete inputs: a not-enrolled rejection makes no
Oracle call, and the successful sample request calls the Oracle before its
commit. -/
theorem C7_oracle_last_gate_witness :
    Event.oracleCall ∉
      (postAttendance sCtx (some "ICT999") (some [1, 0]) (fun _ _ => mkRat 9 10)).trace ∧
    (∃ tl, (postAttendance sCtx (some "ICT651") (some [1, 0]) (fun _ _ => mkRat 9 10)).trace =
      Event.oracleCall :: Event.commit :: tl) := by
  constructor
  · exact C7_oracle_last_gate.1 sCtx (some "ICT999") (some [1, 0]) (fun _ _ => mkRat 9 10)
      "You are not enrolled in this course" (by decide) (by decide)
  · exact C7_oracle_last_gate.2.1 sCtx (some "ICT651") (some [1, 0]) (fun _ _ => mkRat 9 10)
      (by decide)

/-! ## C8 -/

/-- Sample record stored by a submission at 23:00 UTC (whose local calendar
date at offset +02:00 is already the next day). -/
def rec2300 : AttendanceRecord :=
  ⟨"S1", "Alice", "ICT651", 0, "late", mkRat 9 10, true, 840, 82800000⟩

/-- C8 counterexample: the date key actually used is the UTC calendar day
of the submission instant, not the server-local day. At 23:00 UTC with a
server timezone offset of +120 minutes the local calendar date is day 1,
but the endpoint computes and stores day 0. -/
theorem C8_local_date_counterexample :
    utcDateKey 82800000 = 0 ∧
    specLocalDateKey 82800000 120 = 1 ∧
    ((utcDateKey 82800000 : ℤ) ≠ specLocalDateKey 82800000 120) ∧
    (postAttendance ⟨sDB, [], "S1", 82800000, 32400000, false⟩ (some "ICT651")
        (some [1, 0]) (fun _ _ => mkRat 9 10)).resp.data = some rec2300 := by
  exact ⟨rfl, by decide, by decide, by decide⟩

/-- C8 (amended): the duplicate lookup and the persisted record both use
one and the same day key, namely the UTC calendar date of the submission
instant (`toISOString`), which coincides with the server-local date only
for a zero timezone offset. -/
theorem C8_utc_date_key :
    (∀ (ctx : Ctx) (cc : Option String) (fd : Option (List ℚ))
        (oracle : List ℚ → List ℚ → ℚ) (r : AttendanceRecord),
      (postAttendance ctx cc fd oracle).resp.data = some r →
      r.date = utcDateKey ctx.nowMs) ∧
    (∀ (ctx : Ctx) (cc img : Option String) (orc : Except String ℚ)
        (r : AttendanceRecord),
      (postAttendanceImage ctx cc img orc).resp.data = some r →
      r.date = utcDateKey ctx.nowMs) ∧
    (∀ (ctx : Ctx) (cc : String) (fd : Option (List ℚ))
        (oracle : List ℚ → List ℚ → ℚ),
      (postAttendance ctx (some cc) fd oracle).resp.error =
        some "Attendance already marked for today in this course" →
      findDup ctx.db.attendance ctx.sid (toUpperCase cc) (utcDateKey ctx.nowMs) ≠ none) ∧
    (∀ (ctx : Ctx) (cc : String) (img : Option String) (orc : Except String ℚ),
      (postAttendanceImage ctx (some cc) img orc).resp.error =
        some "Attendance already marked for today in this course" →
      findDup ctx.db.attendance ctx.sid (toUpperCase cc) (utcDateKey ctx.nowMs) ≠ none) := by
  refine ⟨?_, ?_, ?_, ?_⟩
  · intro ctx cc fd oracle r
    simp only [postAttendance]
    repeat' split
    all_goals intro h
    all_goals simp [reject] at h
    all_goals subst h
    all_goals rfl
  · intro ctx cc img orc r
    simp only [postAttendanceImage]
    repeat' split
    all_goals intro h
    all_goals simp [reject] at h
    all_goals subst h
    all_goals rfl
  · intro ctx cc fd oracle
    simp only [postAttendance]
    repeat' split
    all_goals intro h
    all_goals simp [reject] at h
    all_goals simp_all
  · intro ctx cc img orc
    simp only [postAttendanceImage]
    repeat' split
    all_goals intro h
    all_goals simp [reject] at h
    all_goals simp_all

/-- Witness for C8 (amended) at concrete inputs: the sample stored record
carries the UTC day key, and the sample duplicate rejection looked the key
up under the UTC day. -/
theorem C8_utc_date_key_witness :
    rec2300.date = utcDateKey 82800000 ∧
    findDup sCtxDup.db.attendance "S1" (toUpperCase "ICT651") (utcDateKey 33600000) ≠ none := by
  constructor
  · exact C8_utc_date_key.1 ⟨sDB, [], "S1", 82800000, 32400000, false⟩ (some "ICT651")
      (some [1, 0]) (fun _ _ => mkRat 9 10) rec2300 (by decide)
  · exact C8_utc_date_key.2.2.1 sCtxDup "ICT651" (some [1, 0]) (fun _ _ => mkRat 9 10)
      (by decide)

/-! ## C9 -/

/-- C9: a late notification is attempted exactly when the committed record
is late, the attempt happens only after the successful commit (the trace is
Oracle call, commit, then notify), and a notification-save failure changes
neither the response nor the committed attendance state nor the trace. -/
theorem C9_late_notification :
    (∀ (ctx : Ctx) (cc : Option String) (fd : Option (List ℚ))
        (oracle : List ℚ → List ℚ → ℚ),
      (Event.notify ∈ (postAttendance ctx cc fd oracle).trace ↔
        (∃ r, (postAttendance ctx cc fd oracle).resp.data = some r ∧ r.isLate = true)) ∧
      (Event.notify ∈ (postAttendance ctx cc fd oracle).trace →
        (postAttendance ctx cc fd oracle).trace =
          [Event.oracleCall, Event.commit, Event.notify])) ∧
    (∀ (ctx : Ctx) (cc img : Option String) (orc : Except String ℚ),
      (Event.notify ∈ (postAttendanceImage ctx cc img orc).trace ↔
        (∃ r, (postAttendanceImage ctx cc img orc).resp.data = some r ∧ r.isLate = true)) ∧
      (Event.notify ∈ (postAttendanceImage ctx cc img orc).trace →
        (postAttendanceImage ctx cc img orc).trace =
          [Event.oracleCall, Event.commit, Event.notify])) ∧
    (∀ (db : DB) (race : List AttendanceRecord) (sid : String) (nowMs startMs : ℕ)
        (b1 b2 : Bool) (cc : Option String) (fd : Option (List ℚ))
        (oracle : List ℚ → List ℚ → ℚ),
      (postAttendance ⟨db, race, sid, nowMs, startMs, b1⟩ cc fd oracle).resp =
        (postAttendance ⟨db, race, sid, nowMs, startMs, b2⟩ cc fd oracle).resp ∧
      (postAttendance ⟨db, race, sid, nowMs, startMs, b1⟩ cc fd oracle).attendance =
        (postAttendance ⟨db, race, sid, nowMs, startMs, b2⟩ cc fd oracle).attendance ∧
      (postAttendance ⟨db, race, sid, nowMs, startMs, b1⟩ cc fd oracle).trace =
        (postAttendance ⟨db, race, sid, nowMs, startMs, b2⟩ cc fd oracle).trace) ∧
    (∀ (db : DB) (race : List AttendanceRecord) (sid : String) (nowMs startMs : ℕ)
        (b1 b2 : Bool) (cc img : Option String) (orc : Except String ℚ),
      (postAttendanceImage ⟨db, race, sid, nowMs, startMs, b1⟩ cc img orc).resp =
        (postAttendanceImage ⟨db, race, sid, nowMs, startMs, b2⟩ cc img orc).resp ∧
      (postAttendanceImage ⟨db, race, sid, nowMs, startMs, b1⟩ cc img orc).attendance =
        (postAttendanceImage ⟨db, race, sid, nowMs, startMs, b2⟩ cc img orc).attendance ∧
      (postAttendanceImage ⟨db, race, sid, nowMs, startMs, b1⟩ cc img orc).trace =
        (postAttendanceImage ⟨db, race, sid, nowMs, startMs, b2⟩ cc img orc).trace) := by
  refine ⟨?_, ?_, ?_, ?_⟩
  · intro ctx cc fd oracle
    simp only [postAttendance]
    repeat' split
    all_goals constructor
    all_goals simp_all [reject]
  · intro ctx cc img orc
    simp only [postAttendanceImage]
    repeat' split
    all_goals constructor
    all_goals simp_all [reject]
  · intro db race sid nowMs startMs b1 b2 cc fd oracle
    simp only [postAttendance]
    repeat' split
    all_goals exact ⟨rfl, rfl, rfl⟩
  · intro db race sid nowMs startMs b1 b2 cc img orc
    simp only [postAttendanceImage]
    repeat' split
    all_goals exact ⟨rfl, rfl, rfl⟩

/-- Witness for C9 at concrete inputs: the sample late submission commits
and then notifies, and a failing notification save leaves the response
unchanged. -/
theorem C9_late_notification_witness :
    (postAttendance sCtx (some "ICT651") (some [1, 0]) (fun _ _ => mkRat 9 10)).trace =
      [Event.oracleCall, Event.commit, Event.notify] ∧
    (postAttendance ⟨sDB, [], "S1", 33600000, 32400000, true⟩ (some "ICT651")
        (some [1, 0]) (fun _ _ => mkRat 9 10)).resp =
      (postAttendance ⟨sDB, [], "S1", 33600000, 32400000, false⟩ (some "ICT651")
        (some [1, 0]) (fun _ _ => mkRat 9 10)).resp := by
  constructor
  · exact (C9_late_notification.1 sCtx (some "ICT651") (some [1, 0])
      (fun _ _ => mkRat 9 10)).2 (by decide)
  · exact (C9_late_notification.2.2.1 sDB [] "S1" 33600000 32400000 true false
      (some "ICT651") (some [1, 0]) (fun _ _ => mkRat 9 10)).1

end AttendanceApp

namespace AttendanceApp

/-! ## Behaviour of the cosine loop -/

/-- A NaN element anywhere in equal-length inputs makes the loop take its
early zero return. -/
lemma cosLoop_nan : ∀ (a b : List EJs) (d n m : EJs), a.length = b.length →
    (EJs.nan ∈ a ∨ EJs.nan ∈ b) → cosLoop a b d n m = none
  | [], [], d, n, m, _, hmem => by simp at hmem
  | [], y :: ys, d, n, m, h, _ => by simp at h
  | x :: xs, [], d, n, m, h, _ => by simp at h
  | x :: xs, y :: ys, d, n, m, h, hmem => by
    have hlen : xs.length = ys.length := by simpa using h
    by_cases hx : x = EJs.nan ∨ y = EJs.nan
    · simp [cosLoop, hx]
    · push_neg at hx
      have hcond : ¬(x = EJs.nan ∨ y = EJs.nan) := by push_neg; exact hx
      simp only [cosLoop]
      rw [if_neg hcond]
      apply cosLoop_nan xs ys _ _ _ hlen
      rcases hmem with hA | hB
      · rcases List.mem_cons.1 hA with heq | htail
        · exact absurd heq.symm hx.1
        · exact Or.inl htail
      · rcases List.mem_cons.1 hB with heq | htail
        · exact absurd heq.symm hx.2
        · exact Or.inr htail

/-- If the left vector is all zeros, the left sum-of-squares accumulator
never changes. -/
lemma cosLoop_allZero_left : ∀ (a b : List EJs) (d m : EJs) (nq : ℚ),
    (∀ x ∈ a, x = EJs.fin 0) → a.length = b.length →
    cosLoop a b d (.fin nq) m = none ∨
    ∃ dd mm, cosLoop a b d (.fin nq) m = some (dd, .fin nq, mm)
  | [], [], d, m, nq, _, _ => Or.inr ⟨d, m, rfl⟩
  | [], y :: ys, d, m, nq, _, h => by simp at h
  | x :: xs, [], d, m, nq, _, h => by simp at h
  | x :: xs, y :: ys, d, m, nq, hz, h => by
    have hlen : xs.length = ys.length := by simpa using h
    have hx : x = EJs.fin 0 := hz x (by simp)
    subst hx
    by_cases hy : y = EJs.nan
    · exact Or.inl (by simp [cosLoop, hy])
    · have hcond : ¬(EJs.fin 0 = EJs.nan ∨ y = EJs.nan) := by simp [hy]
      simp only [cosLoop]
      rw [if_neg hcond]
      have hacc : eadd (EJs.fin nq) (emul (EJs.fin 0) (EJs.fin 0)) = EJs.fin nq := by
        simp [eadd, emul]
      rw [hacc]
      exact cosLoop_allZero_left xs ys _ _ nq (fun z hzz => hz z (by simp [hzz])) hlen

/-- If the right vector is all zeros, the right sum-of-squares accumulator
never changes. -/
lemma cosLoop_allZero_right : ∀ (a b : List EJs) (d n : EJs) (mq : ℚ),
    (∀ y ∈ b, y = EJs.fin 0) → a.length = b.length →
    cosLoop a b d n (.fin mq) = none ∨
    ∃ dd nn, cosLoop a b d n (.fin mq) = some (dd, nn, .fin mq)
  | [], [], d, n, mq, _, _ => Or.inr ⟨d, n, rfl⟩
  | [], y :: ys, d, n, mq, _, h => by simp at h
  | x :: xs, [], d, n, mq, _, h => by simp at h
  | x :: xs, y :: ys, d, n, mq, hz, h => by
    have hlen : xs.length = ys.length := by simpa using h
    have hy : y = EJs.fin 0 := hz y (by simp)
    subst hy
    by_cases hx : x = EJs.nan
    · exact Or.inl (by simp [cosLoop, hx])
    · have hcond : ¬(x = EJs.nan ∨ EJs.fin 0 = EJs.nan) := by simp [hx]
      simp only [cosLoop]
      rw [if_neg hcond]
      have hacc : eadd (EJs.fin mq) (emul (EJs.fin 0) (EJs.fin 0)) = EJs.fin mq := by
        simp [eadd, emul]
      rw [hacc]
      exact cosLoop_allZero_right xs ys _ _ mq (fun z hzz => hz z (by simp [hzz])) hlen

/-- Evaluation of the final quotient on positive finite accumulators. -/
lemma rdiv_fin_sqrts (qd qa qb : ℚ) (ha : 0 < qa) (hb : 0 < qb) :
    rdiv (EJs.toR (.fin qd)) (rmul (rsqrt (EJs.toR (.fin qa))) (rsqrt (EJs.toR (.fin qb)))) =
      RJs.fin ((qd : ℝ) / (Real.sqrt (qa : ℝ) * Real.sqrt (qb : ℝ))) := by
  have haR : (0 : ℝ) < (qa : ℝ) := by exact_mod_cast ha
  have hbR : (0 : ℝ) < (qb : ℝ) := by exact_mod_cast hb
  have hsa : 0 < Real.sqrt (qa : ℝ) := Real.sqrt_pos.2 haR
  have hsb : 0 < Real.sqrt (qb : ℝ) := Real.sqrt_pos.2 hbR
  have hden : Real.sqrt (qa : ℝ) * Real.sqrt (qb : ℝ) ≠ 0 := by positivity
  simp only [EJs.toR, rsqrt, if_neg (not_lt.2 haR.le), if_neg (not_lt.2 hbR.le), rmul,
    rdiv, if_neg hden]

end AttendanceApp

namespace AttendanceApp

/-! ## C5 -/

/-- C5 counterexample: an Infinity element is not caught by any guard of
`computeCosineSimilarity` — on a = [Infinity], b = [1] the function returns
NaN (Infinity / Infinity), not 0. -/
theorem C5_infinity_counterexample :
    computeCosineSimilarity [EJs.inf] [EJs.fin 1] = RJs.nan ∧ RJs.nan ≠ RJs.fin 0 := by
  constructor
  · have hloop : cosLoop [EJs.inf] [EJs.fin 1] (.fin 0) (.fin 0) (.fin 0) =
        some (EJs.inf, EJs.inf, EJs.fin 1) := by
      have hcond : ¬(EJs.inf = EJs.nan ∨ EJs.fin 1 = EJs.nan) := by simp
      simp only [cosLoop]
      rw [if_neg hcond]
      norm_num [eadd, emul]
    simp only [computeCosineSimilarity]
    rw [if_neg (by simp)]
    simp only [hloop]
    rw [if_neg (by simp)]
    simp only [EJs.toR, rsqrt]
    rw [if_neg (by push_cast; norm_num)]
    norm_num [rmul, rdiv, Rat.cast_one, Real.sqrt_one]
  · simp

/-- C5 (amended): `computeCosineSimilarity` returns 0 whenever a vector is
empty, the lengths differ, an element is NaN, or either vector is all
zeros (zero norm); elements equal to positive or negative Infinity are not
guarded against and can make the function return NaN instead of 0. -/
theorem C5_cosine_fail_closed :
    (∀ a b : List EJs,
      a.length = 0 ∨ b.length = 0 ∨ a.length ≠ b.length →
      computeCosineSimilarity a b = .fin 0) ∧
    (∀ a b : List EJs, EJs.nan ∈ a ∨ EJs.nan ∈ b →
      computeCosineSimilarity a b = .fin 0) ∧
    (∀ a b : List EJs, (∀ x ∈ a, x = EJs.fin 0) ∨ (∀ y ∈ b, y = EJs.fin 0) →
      computeCosineSimilarity a b = .fin 0) := by
  refine ⟨?_, ?_, ?_⟩
  · intro a b h
    simp only [computeCosineSimilarity]
    rw [if_pos h]
  · intro a b hmem
    by_cases hg : a.length = 0 ∨ b.length = 0 ∨ a.length ≠ b.length
    · simp only [computeCosineSimilarity]
      rw [if_pos hg]
    · push_neg at hg
      simp only [computeCosineSimilarity]
      rw [if_neg (by push_neg; exact hg)]
      rw [cosLoop_nan a b _ _ _ hg.2.2 hmem]
  · intro a b hz
    by_cases hg : a.length = 0 ∨ b.length = 0 ∨ a.length ≠ b.length
    · simp only [computeCosineSimilarity]
      rw [if_pos hg]
    · push_neg at hg
      simp only [computeCosineSimilarity]
      rw [if_neg (by push_neg; exact hg)]
      rcases hz with hza | hzb
      · rcases cosLoop_allZero_left a b (.fin 0) (.fin 0) 0 hza hg.2.2 with hnone | ⟨dd, mm, hsome⟩
        · rw [hnone]
        · simp only [hsome]
          simp
      · rcases cosLoop_allZero_right a b (.fin 0) (.fin 0) 0 hzb hg.2.2 with hnone | ⟨dd, nn, hsome⟩
        · rw [hnone]
        · simp only [hsome]
          simp

/-- Witness for C5 (amended) at concrete inputs: an empty vector, a NaN
element, and an all-zero vector each yield 0. -/
theorem C5_cosine_fail_closed_witness :
    computeCosineSimilarity [EJs.fin 1] [] = .fin 0 ∧
    computeCosineSimilarity [EJs.nan] [EJs.fin 2] = .fin 0 ∧
    computeCosineSimilarity [EJs.fin 0] [EJs.fin 3] = .fin 0 := by
  exact ⟨C5_cosine_fail_closed.1 [EJs.fin 1] [] (Or.inr (Or.inl rfl)),
    C5_cosine_fail_closed.2.1 [EJs.nan] [EJs.fin 2] (Or.inl (by simp)),
    C5_cosine_fail_closed.2.2 [EJs.fin 0] [EJs.fin 3] (Or.inl (by simp))⟩

/-! ## C6 -/

/-- Evaluation of the local strategy on the opposite unit vectors [1] and
[-1]: dot = -1, both norms 1, result -1. -/
lemma cosineSim_one_negOne :
    computeCosineSimilarity [EJs.fin 1] [EJs.fin (-1)] = RJs.fin (-1) := by
  have hloop : cosLoop [EJs.fin 1] [EJs.fin (-1)] (.fin 0) (.fin 0) (.fin 0) =
      some (.fin (-1), .fin 1, .fin 1) := by
    have hcond : ¬(EJs.fin 1 = EJs.nan ∨ EJs.fin (-1) = EJs.nan) := by simp
    simp only [cosLoop]
    rw [if_neg hcond]
    norm_num [eadd, emul]
  simp only [computeCosineSimilarity]
  rw [if_neg (by simp)]
  simp only [hloop]
  rw [if_neg (by simp)]
  rw [rdiv_fin_sqrts (-1) 1 1 one_pos one_pos]
  push_cast
  norm_num [Real.sqrt_one]

/-- C6 counterexample: the local cosine-similarity strategy can return a
negative score — on a = [1], b = [-1] it succeeds with score -1, which is
not in [0,1]. -/
theorem C6_negative_score_counterexample :
    computeCosineSimilarity [EJs.fin 1] [EJs.fin (-1)] = RJs.fin (-1) ∧ ((-1 : ℝ) < 0) := by
  exact ⟨cosineSim_one_negOne, by norm_num⟩

/-- C6 (amended): the remote adapter maps a provider confidence in [0,100]
to a score in [0,1]; the local cosine-similarity strategy does not satisfy
the [0,1] range contract — it can return a negative score. No range bound
is claimed for the local strategy: in double arithmetic its accumulators
can also overflow to Infinity on large finite inputs and yield NaN, which
the exact-rational finite arithmetic of this model does not capture. -/
theorem C6_oracle_score_range :
    (∀ c : ℚ, 0 ≤ c → c ≤ 100 →
      faceppCompare (some c) = .ok (c / 100) ∧ 0 ≤ c / 100 ∧ c / 100 ≤ 1) ∧
    (∃ (a b : List EJs) (x : ℝ),
      computeCosineSimilarity a b = RJs.fin x ∧ x < 0) := by
  constructor
  · intro c h0 h100
    refine ⟨rfl, div_nonneg h0 (by norm_num), ?_⟩
    rw [div_le_one (by norm_num : (0:ℚ) < 100)]
    exact h100
  · exact ⟨[EJs.fin 1], [EJs.fin (-1)], -1, cosineSim_one_negOne, by norm_num⟩

/-- Witness for C6 (amended) at concrete inputs: confidence 90 maps to the
score 0.9 inside [0,1], and some input makes the local strategy return a
negative score. -/
theorem C6_oracle_score_range_witness :
    (faceppCompare (some 90) = .ok (90 / 100) ∧ 0 ≤ (90 : ℚ) / 100 ∧ (90 : ℚ) / 100 ≤ 1) ∧
    (∃ (a b : List EJs) (x : ℝ),
      computeCosineSimilarity a b = RJs.fin x ∧ x < 0) := by
  exact ⟨C6_oracle_score_range.1 90 (by norm_num) (by norm_num),
    C6_oracle_score_range.2⟩

end AttendanceApp
